import Mathlib

/-!
# TaxiTrack core: shallow embedding and verification

A shallow Lean embedding of the fusion/validation core of the taxitrack
repository, together with theorems settling the specification claims.

Embedded components and their sources:
* Trip ledger                — `src/trip_management/models.py`
* Passenger counter          — `src/computer_vision/passenger_counter.py`
* Anti-fraud fusion          — `src/face_tracking/anti_fraud_manager.py`
* Face (identity) tracker    — `src/face_tracking/face_tracker.py`

Modelling conventions:
* `datetime.now()` is modelled by an explicit `now : Nat` argument (abstract
  monotone clock ticks); `timedelta` comparisons are rewritten additively
  (`a < now - k` becomes `a + k < now`), which agrees with the Python
  arithmetic on integers.
* Python `dict` (insertion-ordered, unique keys) is modelled as an
  association list `List (String × _)` mutated in place via a keyed map.
* Event `uuid`s are external randomness and are not modelled; no claim
  mentions them.
* Embedding distances (numpy floats in the source) are modelled as exact
  rationals `ℚ`; the external `face_recognition.face_distance` collaborator
  is an explicit function parameter.
-/

namespace TaxiTrack

/-! ## Trip ledger (`src/trip_management/models.py`) -/

/-- `TripStatus` enum from `models.py`. -/
inductive TripStatus where
  | not_started | active | paused | completed | cancelled | error
deriving DecidableEq, Repr

/-- `EventType` enum from `models.py`. -/
inductive EventType where
  | trip_started | trip_stopped | passenger_entry | passenger_exit
  | overload_detected | capacity_warning | system_error | backend_sync
deriving DecidableEq, Repr

/-- `TripEvent` model from `models.py` (the random `event_id` is external
randomness and not modelled). -/
structure TripEvent where
  tripId : String
  eventType : EventType
  timestamp : Nat
  passengerCount : Int
  metadata : List (String × Int)
deriving DecidableEq, Repr

/-- `Trip` model from `models.py` (fields a claim touches; route info,
sync bookkeeping and the free-form stats dict are omitted). -/
structure Trip where
  tripId : String
  deviceId : String
  status : TripStatus := .not_started
  startTime : Option Nat := some 0
  endTime : Option Nat := none
  currentPassengerCount : Int := 0
  maxPassengerCount : Int := 0
  totalEntries : Nat := 0
  totalExits : Nat := 0
  maxCapacity : Int := 14
  overloadEvents : Nat := 0
  isOverloaded : Bool := false
  events : List TripEvent := []
deriving DecidableEq, Repr

/-- `Trip.add_event`: append a timestamped event carrying the current count;
return the created event together with the mutated trip. -/
def Trip.add_event (t : Trip) (eventType : EventType)
    (metadata : List (String × Int)) (now : Nat) : TripEvent × Trip :=
  let event : TripEvent :=
    { tripId := t.tripId, eventType := eventType, timestamp := now,
      passengerCount := t.currentPassengerCount, metadata := metadata }
  (event, { t with events := t.events ++ [event] })

/-- `Trip.update_passenger_count`: store the new count, update the maximum
seen, and run edge-triggered overload detection. -/
def Trip.update_passenger_count (t : Trip) (newCount : Int) (now : Nat) : Trip :=
  let t := { t with
    currentPassengerCount := newCount,
    maxPassengerCount := max t.maxPassengerCount newCount }
  if newCount > t.maxCapacity then
    if !t.isOverloaded then
      let t := { t with isOverloaded := true, overloadEvents := t.overloadEvents + 1 }
      (t.add_event .overload_detected
        [("passenger_count", newCount), ("max_capacity", t.maxCapacity)] now).2
    else t
  else
    { t with isOverloaded := false }

/-- `Trip.end_trip`: stamp `end_time` with the current time and set the
status to `completed`. -/
def Trip.end_trip (t : Trip) (now : Nat) : Trip :=
  { t with endTime := some now, status := .completed }

/-- Fold a list of `(count, timestamp)` updates through the ledger. -/
def Trip.run_updates (t : Trip) : List (Int × Nat) → Trip
  | [] => t
  | (n, now) :: rest => (t.update_passenger_count n now).run_updates rest

/-- A concrete trip with the model's defaults, used to instantiate claims. -/
def demoTrip : Trip := { tripId := "trip-1", deviceId := "taxi-1" }

/-! ## Passenger counter (`src/computer_vision/passenger_counter.py`)

Only the count/statistics state touched by `_handle_zone_event` is
modelled; the camera, detector and callback plumbing are external. -/

/-- The counting state of `PassengerCounter`. -/
structure CounterState where
  currentCount : Int := 0
  totalEntries : Nat := 0
  totalExits : Nat := 0
  overloadEventsStat : Nat := 0
  maxCapacity : Int := 14
deriving DecidableEq, Repr

/-- `PassengerCounter._handle_zone_event`, restricted to the fields it
mutates: entries increment the count, exits decrement it but clamp at 0
(`max(0, count - 1)`), and a count above capacity bumps the overload
statistic. -/
def handle_zone_event (s : CounterState) (eventType : String) : CounterState :=
  let s :=
    if eventType = "entry" then
      { s with currentCount := s.currentCount + 1, totalEntries := s.totalEntries + 1 }
    else if eventType = "exit" then
      { s with currentCount := max 0 (s.currentCount - 1), totalExits := s.totalExits + 1 }
    else s
  if s.currentCount > s.maxCapacity then
    { s with overloadEventsStat := s.overloadEventsStat + 1 }
  else s

/-- Fold a sequence of zone-event types through `_handle_zone_event`. -/
def run_zone_events (s : CounterState) : List String → CounterState
  | [] => s
  | ev :: rest => run_zone_events (handle_zone_event s ev) rest

/-! ## Face (identity) tracker (`src/face_tracking/face_tracker.py`)

Face embeddings are an opaque type `α`; the external
`face_recognition.face_distance` collaborator is a parameter
`d : α → α → ℚ` (the source's floating-point distances are modelled as
exact rationals). -/

/-- `TrackedFace` dataclass from `face_tracker.py`. -/
structure TrackedFace (α : Type) where
  faceId : String
  encodings : List α
  lastSeen : Nat
  firstSeen : Nat
  detectionCount : Nat
  status : String := "active"

/-- The mutable tracking state of `FaceTracker` (`tracked_faces` keeps the
dict's insertion order; `tolerance` defaults to 0.6, `max_tracking_time`
to 10 s). -/
structure FaceTrackerState (α : Type) where
  trackedFaces : List (TrackedFace α) := []
  nextFaceId : Nat := 1
  tolerance : ℚ := 3/5
  maxTrackingTime : Nat := 10

/-- The character of a decimal digit. -/
def digitChar (d : Nat) : Char := Char.ofNat (48 + d)

/-- Big-endian decimal digit characters of `n` (empty for 0), written with
explicit fuel so that it reduces definitionally. -/
def natDigitCharsAux : Nat → Nat → List Char
  | 0, _ => []
  | fuel + 1, n =>
    if n = 0 then [] else natDigitCharsAux fuel (n / 10) ++ [digitChar (n % 10)]

/-- Big-endian decimal digit characters of `n`. -/
def natDigitChars (n : Nat) : List Char := natDigitCharsAux n n

/-- Left-pad a digit string with `'0'` to width 4, as Python's `{:04d}`. -/
def pad4 (cs : List Char) : List Char := List.replicate (4 - cs.length) '0' ++ cs

/-- The id string `f"face_{n:04d}"` assigned to the `n`-th created
identity. -/
def mkFaceId (n : Nat) : String := "face_" ++ String.mk (pad4 (natDigitChars n))

/-- Read a (possibly zero-padded) big-endian decimal digit string back as a
number; used to show `mkFaceId` is injective. -/
def parsePaddedNum (cs : List Char) : Nat :=
  cs.foldl (fun a c => 10 * a + (c.toNat - 48)) 0

/-- `FaceTracker._match_detection_to_tracked_face`: scan the tracked faces
in insertion order; skip non-active faces and faces with no stored
encoding; return the first face whose most recent encoding is within
`tolerance` of the new encoding. -/
def match_detection_to_tracked_face {α : Type} (d : α → α → ℚ) (tol : ℚ) (enc : α) :
    List (TrackedFace α) → Option String
  | [] => none
  | f :: rest =>
    if f.status = "active" then
      match f.encodings.getLast? with
      | some recent =>
        if d recent enc ≤ tol then some f.faceId
        else match_detection_to_tracked_face d tol enc rest
      | none => match_detection_to_tracked_face d tol enc rest
    else match_detection_to_tracked_face d tol enc rest

/-- Modelled from the spec (§4.3 Match): compute the distance to the most
recent embedding of every active identity, select the global minimum, and
match iff that minimum distance is ≤ tolerance.  Stated only to compare
against the source's `_match_detection_to_tracked_face`. -/
def matchBySpecMinimum {α : Type} (d : α → α → ℚ) (tol : ℚ) (enc : α)
    (faces : List (TrackedFace α)) : Option String :=
  let active := faces.filter fun f => f.status == "active" && !f.encodings.isEmpty
  match active.argmin (fun f => d ((f.encodings.getLast?).getD enc) enc) with
  | none => none
  | some f => if d ((f.encodings.getLast?).getD enc) enc ≤ tol then some f.faceId else none

/-- The Boolean test `_match_detection_to_tracked_face` applies to each
scanned face. -/
def faceWithinTolerance {α : Type} (d : α → α → ℚ) (tol : ℚ) (enc : α)
    (f : TrackedFace α) : Bool :=
  decide (f.status = "active") &&
    match f.encodings.getLast? with
    | some recent => decide (d recent enc ≤ tol)
    | none => false

/-- The in-place update of a matched tracked face in `update_tracking`:
append the encoding (keeping the last 10), refresh `last_seen`, bump the
detection count, and force status `active`. -/
def refreshMatchedFace {α : Type} (f : TrackedFace α) (enc : α) (now : Nat) :
    TrackedFace α :=
  let es := f.encodings ++ [enc]
  { f with
    encodings := if es.length > 10 then es.drop (es.length - 10) else es,
    lastSeen := now, detectionCount := f.detectionCount + 1, status := "active" }

/-- The state after a matched detection's in-place dict update. -/
def matchedUpdateState {α : Type} (s : FaceTrackerState α) (fid : String)
    (enc : α) (now : Nat) : FaceTrackerState α :=
  { s with trackedFaces := s.trackedFaces.map fun f =>
      if f.faceId == fid then refreshMatchedFace f enc now else f }

/-- The state after creating a fresh tracked face for an unmatched
detection: the new face is appended to the dict and the id counter
advances. -/
def newFaceState {α : Type} (s : FaceTrackerState α) (enc : α) (now : Nat) :
    FaceTrackerState α :=
  { s with
    trackedFaces := s.trackedFaces ++
      [{ faceId := mkFaceId s.nextFaceId, encodings := [enc], lastSeen := now,
         firstSeen := now, detectionCount := 1, status := "active" }],
    nextFaceId := s.nextFaceId + 1 }

/-- The per-detection loop of `FaceTracker.update_tracking`: match each
detection, updating the matched face in place or creating a fresh identity
with the next id.  Also returns the ids of the identities the loop
created, in creation order. -/
def processDetections {α : Type} (d : α → α → ℚ) (now : Nat)
    (s : FaceTrackerState α) : List α → FaceTrackerState α × List String
  | [] => (s, [])
  | enc :: rest =>
    match match_detection_to_tracked_face d s.tolerance enc s.trackedFaces with
    | some fid => processDetections d now (matchedUpdateState s fid enc now) rest
    | none =>
      let res := processDetections d now (newFaceState s enc now) rest
      (res.1, mkFaceId s.nextFaceId :: res.2)

/-- The aging pass of `update_tracking`: an active face unseen for more
than `max_tracking_time` becomes `lost` (`last_seen < now - maxT` is
rewritten additively as `last_seen + maxT < now`). -/
def agingStep {α : Type} (now maxT : Nat) (f : TrackedFace α) : TrackedFace α :=
  if f.lastSeen + maxT < now ∧ f.status = "active" then { f with status := "lost" } else f

/-- `FaceTracker.update_tracking`: per-detection matching, then aging, then
purging of faces unseen for more than `2 × max_tracking_time`.  Returns the
new state together with the ids created during the call. -/
def update_tracking {α : Type} (d : α → α → ℚ) (s : FaceTrackerState α)
    (dets : List α) (now : Nat) : FaceTrackerState α × List String :=
  let s1 := (processDetections d now s dets).1
  let s2 := { s1 with trackedFaces := s1.trackedFaces.map (agingStep now s1.maxTrackingTime) }
  let s3 := { s2 with trackedFaces :=
    s2.trackedFaces.filter fun f => !(f.lastSeen + 2 * s2.maxTrackingTime < now) }
  (s3, (processDetections d now s dets).2)

/-- `FaceTracker.reset_tracking`: clear the tracked faces and reset the id
counter to 1. -/
def reset_tracking {α : Type} (s : FaceTrackerState α) : FaceTrackerState α :=
  { s with trackedFaces := [], nextFaceId := 1 }

/-- An externally invokable tracker operation: a tracking update with a
batch of detections, or a reset. -/
inductive TrackerOp (α : Type) where
  | update (dets : List α) (now : Nat)
  | reset
deriving DecidableEq

/-- Run one tracker operation; the second component lists the identity ids
created by the operation. -/
def runTrackerOp {α : Type} (d : α → α → ℚ) (s : FaceTrackerState α) :
    TrackerOp α → FaceTrackerState α × List String
  | .update dets now => update_tracking d s dets now
  | .reset => (reset_tracking s, [])

/-- Run a sequence of tracker operations, collecting every created id in
order. -/
def runTrackerOps {α : Type} (d : α → α → ℚ) (s : FaceTrackerState α) :
    List (TrackerOp α) → FaceTrackerState α × List String
  | [] => (s, [])
  | op :: rest =>
    let res := runTrackerOp d s op
    let res' := runTrackerOps d res.1 rest
    (res'.1, res.2 ++ res'.2)

/-- The absolute-value distance on rational `embeddings`, used to
instantiate the abstract distance parameter in concrete examples. -/
def ratDist (a b : ℚ) : ℚ := |a - b|

/-- A concrete initial tracker state over rational embeddings. -/
def demoTracker : FaceTrackerState ℚ := {}

/-! ## Anti-fraud fusion (`src/face_tracking/anti_fraud_manager.py`) -/

/-- `PassengerRecord` dataclass from `anti_fraud_manager.py`. -/
structure PassengerRecord where
  faceId : String
  entryTime : Option Nat
  exitTime : Option Nat := none
  status : String := "inside"
  zoneEvents : List String := []
deriving DecidableEq, Repr

/-- A face detection as consumed by the fusion stage: the bbox corners
(`top, right, bottom, left`, nonnegative pixel coordinates) and the
`face_id` assigned by `update_tracking` (absent until assigned). -/
structure FaceDet where
  top : Nat
  rightEdge : Nat
  bottom : Nat
  leftEdge : Nat
  faceId : Option String := none
deriving DecidableEq, Repr

/-- The face center `((left + right) // 2, (top + bottom) // 2)`. -/
def faceCenter (f : FaceDet) : Nat × Nat :=
  ((f.leftEdge + f.rightEdge) / 2, (f.top + f.bottom) / 2)

/-- A zone-crossing event dict as consumed by the fusion stage: its type
string, the weak per-frame person index, the center of its person
detection (absent when the `"detection"` key is missing), and the
`"face_id"` key (absent on raw events). -/
structure ZoneEvent where
  type : String
  personId : Nat
  detectionCenter : Option (Nat × Nat)
  faceId : Option String := none
deriving DecidableEq, Repr

/-- Squared Euclidean distance between two pixel points.  The source
compares real Euclidean distances (`d < min` in the scan, `d ≤ 100` at the
gate); squaring both sides preserves both comparisons, so the model works
with exact squared distances. -/
def distSq (a b : Nat × Nat) : Int :=
  ((a.1 : Int) - b.1) * ((a.1 : Int) - b.1) + ((a.2 : Int) - b.2) * ((a.2 : Int) - b.2)

/-- The scan loop of `_match_zone_event_to_face`: keep the face with the
strictly smallest (squared) distance, the earliest on ties. -/
def closestFaceAux (pc : Nat × Nat) : FaceDet × Int → List FaceDet → FaceDet × Int
  | best, [] => best
  | best, f :: rest =>
    let dsq := distSq pc (faceCenter f)
    closestFaceAux pc (if dsq < best.2 then (f, dsq) else best) rest

/-- `AntiFraudManager._match_zone_event_to_face`: with no face detections
or no `"detection"` key, no match; otherwise the closest face by center
distance, accepted only within 100 px (squared: 10000). -/
def match_zone_event_to_face (ev : ZoneEvent) (faces : List FaceDet) : Option FaceDet :=
  match faces with
  | [] => none
  | f0 :: rest =>
    match ev.detectionCenter with
    | none => none
    | some pc =>
      let best := closestFaceAux pc (f0, distSq pc (faceCenter f0)) rest
      if best.2 ≤ 10000 then some best.1 else none

/-- The anti-fraud statistics dict. -/
structure AntiFraudStats where
  preventedDoubleCounts : Nat := 0
  temporaryExitsHandled : Nat := 0
  uniquePassengersSeen : Nat := 0
  falsePositivesPrevented : Nat := 0
deriving DecidableEq, Repr

/-- The mutable state of `AntiFraudManager` (`passenger_records` keeps the
dict's insertion order; the temporary-exit timeout defaults to 30 s). -/
structure AntiFraudState where
  passengerRecords : List (String × PassengerRecord) := []
  temporaryExitTimeout : Nat := 30
  stats : AntiFraudStats := {}
deriving DecidableEq, Repr

/-- Dict lookup by a possibly absent face id (`None not in dict` is
simply false, so an absent id behaves like an unknown passenger). -/
def lookupByOptId (records : List (String × PassengerRecord)) :
    Option String → Option PassengerRecord
  | none => none
  | some fid => records.lookup fid

/-- `AntiFraudManager._is_legitimate_event`: with no record any event type
is legitimate; `entry` is legitimate iff the status is `outside` or
`temporary_exit`; `exit` iff it is `inside`; anything else is not. -/
def is_legitimate_event (records : List (String × PassengerRecord))
    (eventType : String) (faceId : Option String) : Bool :=
  match lookupByOptId records faceId with
  | none => true
  | some record =>
    if eventType = "entry" then
      record.status == "outside" || record.status == "temporary_exit"
    else if eventType = "exit" then
      record.status == "inside"
    else false

/-- `AntiFraudManager._validate_zone_events`: match each event to a face;
a matched event is forwarded (tagged with the face id) iff legitimate,
otherwise dropped with `prevented_double_counts` incremented; an unmatched
event is forwarded unvalidated. -/
def validate_zone_events (s : AntiFraudState) (events : List ZoneEvent)
    (faces : List FaceDet) : AntiFraudState × List ZoneEvent :=
  match events with
  | [] => (s, [])
  | ev :: rest =>
    match match_zone_event_to_face ev faces with
    | some f =>
      if is_legitimate_event s.passengerRecords ev.type f.faceId then
        let res := validate_zone_events s rest faces
        (res.1, { ev with faceId := f.faceId } :: res.2)
      else
        let s := { s with stats :=
          { s.stats with preventedDoubleCounts := s.stats.preventedDoubleCounts + 1 } }
        validate_zone_events s rest faces
    | none =>
      let res := validate_zone_events s rest faces
      (res.1, ev :: res.2)

/-- In-place mutation of the record stored under `fid` in the records
dict. -/
def setRecord (records : List (String × PassengerRecord)) (fid : String)
    (v : PassengerRecord) : List (String × PassengerRecord) :=
  records.map fun p => if p.1 == fid then (p.1, v) else p

/-- One iteration of the validated-events loop in
`_update_passenger_records`: events without a face id are skipped; an
unknown id creates a fresh record (entry ⇒ `inside` with `entry_time`
stamped, otherwise `outside` with both timestamps absent) and bumps
`unique_passengers_seen`; a known id updates the record (an entry from
`temporary_exit` bumps `temporary_exits_handled` first); every processed
event is appended to the record's event log. -/
def applyValidatedEvent (now : Nat) (records : List (String × PassengerRecord))
    (stats : AntiFraudStats) (ev : ZoneEvent) :
    List (String × PassengerRecord) × AntiFraudStats :=
  match ev.faceId with
  | none => (records, stats)
  | some fid =>
    match records.lookup fid with
    | none =>
      let record : PassengerRecord :=
        { faceId := fid,
          entryTime := if ev.type = "entry" then some now else none,
          exitTime := none,
          status := if ev.type = "entry" then "inside" else "outside",
          zoneEvents := [ev.type ++ "_" ++ toString now] }
      (records ++ [(fid, record)],
        { stats with uniquePassengersSeen := stats.uniquePassengersSeen + 1 })
    | some record =>
      let stats :=
        if ev.type = "entry" && record.status == "temporary_exit" then
          { stats with temporaryExitsHandled := stats.temporaryExitsHandled + 1 }
        else stats
      let record :=
        if ev.type = "entry" then { record with status := "inside", entryTime := some now }
        else if ev.type = "exit" then { record with status := "outside", exitTime := some now }
        else record
      let record := { record with zoneEvents := record.zoneEvents ++ [ev.type ++ "_" ++ toString now] }
      (setRecord records fid record, stats)

/-- The validated-events loop of `_update_passenger_records`. -/
def processValidatedEvents (now : Nat) (records : List (String × PassengerRecord))
    (stats : AntiFraudStats) : List ZoneEvent →
    List (String × PassengerRecord) × AntiFraudStats
  | [] => (records, stats)
  | ev :: rest =>
    let res := applyValidatedEvent now records stats ev
    processValidatedEvents now res.1 res.2 rest

/-- The ids of the currently active tracked faces
(`{face.face_id for face in tracked_faces if face.status == "active"}`). -/
def activeFaceIds {α : Type} (tracked : List (TrackedFace α)) : List String :=
  (tracked.filter fun f => f.status == "active").map TrackedFace.faceId

/-- The silence rule applied to one record: an `inside` record whose id is
not among the active face ids becomes `temporary_exit` once
`now - entry_time` exceeds the timeout (`entry_time + timeout < now`).
An `inside` record with no `entry_time` would make the source raise a
`TypeError` on the subtraction; it is left unchanged here (unreachable:
the update loop always stamps `entry_time` when it sets status
`inside`). -/
def silenceRecord (now timeout : Nat) (activeIds : List String) (fid : String)
    (r : PassengerRecord) : PassengerRecord :=
  if r.status == "inside" && !(activeIds.contains fid) then
    match r.entryTime with
    | some et => if et + timeout < now then { r with status := "temporary_exit" } else r
    | none => r
  else r

/-- The silence rule applied to a dict entry. -/
def silenceStep (now timeout : Nat) (activeIds : List String)
    (p : String × PassengerRecord) : String × PassengerRecord :=
  (p.1, silenceRecord now timeout activeIds p.1 p.2)

/-- `AntiFraudManager._update_passenger_records`: the validated-events
loop followed by the silence pass over every record. -/
def update_passenger_records {α : Type} (s : AntiFraudState)
    (validatedEvents : List ZoneEvent) (tracked : List (TrackedFace α))
    (now : Nat) : AntiFraudState :=
  let res := processValidatedEvents now s.passengerRecords s.stats validatedEvents
  { s with
    passengerRecords :=
      res.1.map (silenceStep now s.temporaryExitTimeout (activeFaceIds tracked)),
    stats := res.2 }

/-- `AntiFraudManager._cleanup_old_records`: purge every record whose last
activity (`exit_time or entry_time`) is a timestamp more than one hour
(3600 s) old; records with neither timestamp are kept
(`last_activity < now - 3600` is rewritten additively). -/
def cleanup_old_records (records : List (String × PassengerRecord)) (now : Nat) :
    List (String × PassengerRecord) :=
  records.filter fun p =>
    match p.2.exitTime.or p.2.entryTime with
    | none => true
    | some la => !(la + 3600 < now)

/-! ## Trip ledger theorems -/

/-- C1: overload detection is edge-triggered.  Starting from a trip with
`max_capacity = 14`, `is_overloaded = false` and `overload_events = 0`,
feeding the counts `[5, 10, 15, 10, 16, 10]` through
`update_passenger_count` leaves `overload_events = 2` (one increment per
false-to-true transition of `is_overloaded`, at 15 and at 16), appends
exactly two `overload_detected` events, and every call with a count
`≤ max_capacity` ends with `is_overloaded = false` and appends no event. -/
theorem overload_edge_trigger_trace (t : Trip)
    (hcap : t.maxCapacity = 14) (_hov : t.isOverloaded = false)
    (hev : t.overloadEvents = 0) (n1 n2 n3 n4 n5 n6 : Nat) :
    let t1 := t.update_passenger_count 5 n1
    let t2 := t1.update_passenger_count 10 n2
    let t3 := t2.update_passenger_count 15 n3
    let t4 := t3.update_passenger_count 10 n4
    let t5 := t4.update_passenger_count 16 n5
    let t6 := t5.update_passenger_count 10 n6
    t6.overloadEvents = 2 ∧
    t6.events.map TripEvent.eventType =
      t.events.map TripEvent.eventType ++ [.overload_detected, .overload_detected] ∧
    t1.isOverloaded = false ∧ t1.events = t.events ∧
    t2.isOverloaded = false ∧ t2.events = t.events ∧
    t3.isOverloaded = true ∧ t3.overloadEvents = 1 ∧
    t4.isOverloaded = false ∧ t4.events = t3.events ∧
    t5.isOverloaded = true ∧ t5.overloadEvents = 2 ∧
    t6.isOverloaded = false ∧ t6.events = t5.events := by
  simp [Trip.update_passenger_count, Trip.add_event, hcap, hev]

/-- Witness for C1 at a concrete trip and concrete timestamps. -/
theorem overload_edge_trigger_trace_witness :
    (demoTrip.maxCapacity = 14 ∧ demoTrip.isOverloaded = false ∧
      demoTrip.overloadEvents = 0) ∧
    (let t1 := demoTrip.update_passenger_count 5 1
     let t2 := t1.update_passenger_count 10 2
     let t3 := t2.update_passenger_count 15 3
     let t4 := t3.update_passenger_count 10 4
     let t5 := t4.update_passenger_count 16 5
     let t6 := t5.update_passenger_count 10 6
     t6.overloadEvents = 2 ∧
     t6.events.map TripEvent.eventType =
       demoTrip.events.map TripEvent.eventType ++
         [.overload_detected, .overload_detected] ∧
     t1.isOverloaded = false ∧ t1.events = demoTrip.events ∧
     t2.isOverloaded = false ∧ t2.events = demoTrip.events ∧
     t3.isOverloaded = true ∧ t3.overloadEvents = 1 ∧
     t4.isOverloaded = false ∧ t4.events = t3.events ∧
     t5.isOverloaded = true ∧ t5.overloadEvents = 2 ∧
     t6.isOverloaded = false ∧ t6.events = t5.events) :=
  ⟨⟨rfl, rfl, rfl⟩, overload_edge_trigger_trace demoTrip rfl rfl rfl 1 2 3 4 5 6⟩

/-- C7 counterexample: `end_trip` is not idempotent.  On the concrete trip,
a second `end_trip` call at time 9 re-stamps `end_time` from `some 5` to
`some 9`, and a later `update_passenger_count 7` on the completed trip
mutates the count from 0 to 7 instead of being rejected or a no-op. -/
theorem end_trip_not_idempotent_cex :
    ((demoTrip.end_trip 5).end_trip 9).endTime = some 9 ∧
    (demoTrip.end_trip 5).endTime = some 5 ∧
    (demoTrip.end_trip 5).status = .completed ∧
    ((demoTrip.end_trip 5).update_passenger_count 7 10).currentPassengerCount = 7 ∧
    (demoTrip.end_trip 5).currentPassengerCount = 0 := by
  refine ⟨rfl, rfl, rfl, ?_, rfl⟩
  decide

/-- C7 amended: a second `end_trip` call re-stamps `end_time` to the time of
the second call (equivalently, calling twice equals calling once at the
later time); `end_trip` never appends an event; and a completed trip is not
immutable — `update_passenger_count` on it still stores the new count. -/
theorem end_trip_restamps (t : Trip) (n1 n2 : Nat) :
    (t.end_trip n1).end_trip n2 = t.end_trip n2 ∧
    (t.end_trip n1).events = t.events ∧
    (t.end_trip n1).status = .completed ∧
    ∀ (n : Int) (now : Nat),
      ((t.end_trip n1).update_passenger_count n now).currentPassengerCount = n := by
  refine ⟨rfl, rfl, rfl, fun n now => ?_⟩
  unfold Trip.update_passenger_count Trip.add_event
  dsimp only
  split <;> [skip; rfl]
  split <;> rfl

/-- C8 counterexample: a negative external override is not clamped.  On the
concrete trip, `update_passenger_count (-3)` leaves
`current_passenger_count = -3 < 0`. -/
theorem negative_count_no_clamp_cex :
    (demoTrip.update_passenger_count (-3) 0).currentPassengerCount = -3 ∧
    ¬ (0:Int) ≤ (demoTrip.update_passenger_count (-3) 0).currentPassengerCount := by
  constructor
  · decide
  · decide

/-- C8 amended: for `n < 0` (and a nonnegative capacity) the ledger stores
`n` itself — no clamping, no exception (the update is total, so the trip
remains queryable) — appends no event, clears `is_overloaded`, and updates
the maximum as `max old n`. -/
theorem update_negative_stores_as_is (t : Trip) (n : Int) (now : Nat)
    (hn : n < 0) (hcap : 0 ≤ t.maxCapacity) :
    (t.update_passenger_count n now).currentPassengerCount = n ∧
    (t.update_passenger_count n now).isOverloaded = false ∧
    (t.update_passenger_count n now).events = t.events ∧
    (t.update_passenger_count n now).maxPassengerCount = max t.maxPassengerCount n := by
  have hle : ¬ n > t.maxCapacity := by omega
  simp [Trip.update_passenger_count, hle]

/-- Witness for C8 at the concrete trip and `n = -3`. -/
theorem update_negative_stores_as_is_witness :
    ((-3:Int) < 0 ∧ (0:Int) ≤ demoTrip.maxCapacity) ∧
    ((demoTrip.update_passenger_count (-3) 0).currentPassengerCount = -3 ∧
     (demoTrip.update_passenger_count (-3) 0).isOverloaded = false ∧
     (demoTrip.update_passenger_count (-3) 0).events = demoTrip.events ∧
     (demoTrip.update_passenger_count (-3) 0).maxPassengerCount =
       max demoTrip.maxPassengerCount (-3)) :=
  ⟨⟨by decide, by decide⟩,
    update_negative_stores_as_is demoTrip (-3) 0 (by decide) (by decide)⟩

/-! ## Passenger counter theorems -/

/-- One zone event keeps the count nonnegative. -/
lemma handle_zone_event_nonneg (s : CounterState) (ev : String)
    (h : 0 ≤ s.currentCount) : 0 ≤ (handle_zone_event s ev).currentCount := by
  unfold handle_zone_event
  dsimp only
  repeat' split
  all_goals simp_all
  all_goals omega

/-- C3: count non-negativity.  For every sequence of zone events handled by
the counter, starting from a nonnegative count (in particular from the
initial 0), the count stays nonnegative after every event (hence at every
observation point, each being the fold of a prefix); a single `entry`
event adds 1 and a single `exit` event computes `max 0 (count - 1)`. -/
theorem counter_count_nonneg (s : CounterState) (evs : List String)
    (h : 0 ≤ s.currentCount) :
    0 ≤ (run_zone_events s evs).currentCount ∧
    (∀ s' : CounterState,
      (handle_zone_event s' "entry").currentCount = s'.currentCount + 1 ∧
      (handle_zone_event s' "exit").currentCount = max 0 (s'.currentCount - 1)) := by
  constructor
  · induction evs generalizing s with
    | nil => exact h
    | cons ev rest ih => exact ih _ (handle_zone_event_nonneg s ev h)
  · intro s'
    constructor
    · unfold handle_zone_event
      simp [apply_ite CounterState.currentCount]
    · unfold handle_zone_event
      simp [apply_ite CounterState.currentCount]

/-- Witness for C3: the event trace entry, entry, exit, exit, exit from the
initial counter state. -/
theorem counter_count_nonneg_witness :
    (0 ≤ (({} : CounterState)).currentCount) ∧
    (0 ≤ (run_zone_events {} ["entry", "entry", "exit", "exit", "exit"]).currentCount ∧
     (∀ s' : CounterState,
       (handle_zone_event s' "entry").currentCount = s'.currentCount + 1 ∧
       (handle_zone_event s' "exit").currentCount = max 0 (s'.currentCount - 1))) :=
  ⟨by decide, counter_count_nonneg {} ["entry", "entry", "exit", "exit", "exit"] (by decide)⟩

/-! ## Identity-id machinery: `mkFaceId` is injective -/

/-- One appended digit multiplies the parsed value by 10 and adds the
digit. -/
lemma parse_append_digit (cs : List Char) (c : Char) :
    parsePaddedNum (cs ++ [c]) = 10 * parsePaddedNum cs + (c.toNat - 48) := by
  simp [parsePaddedNum, List.foldl_append]

/-- Reading back a digit character recovers the digit. -/
lemma toNat_digitChar (d : Nat) (h : d < 10) : (digitChar d).toNat - 48 = d := by
  interval_cases d <;> rfl

/-- Parsing undoes decimal printing (with enough fuel). -/
lemma parse_natDigitCharsAux : ∀ (fuel n : Nat), n < 10 ^ fuel →
    parsePaddedNum (natDigitCharsAux fuel n) = n := by
  intro fuel
  induction fuel with
  | zero => intro n h; interval_cases n; rfl
  | succ fuel ih =>
    intro n h
    by_cases h0 : n = 0
    · subst h0; rfl
    · have hdiv : n / 10 < 10 ^ fuel := by
        rw [Nat.div_lt_iff_lt_mul (by norm_num)]
        rw [← pow_succ]
        exact h
      simp only [natDigitCharsAux, if_neg h0]
      rw [parse_append_digit, ih (n / 10) hdiv,
        toNat_digitChar (n % 10) (Nat.mod_lt _ (by norm_num))]
      omega

/-- Leading zero padding does not change the parsed value. -/
lemma parse_zero_pad (k : Nat) (cs : List Char) :
    parsePaddedNum (List.replicate k '0' ++ cs) = parsePaddedNum cs := by
  induction k with
  | zero => rfl
  | succ k ih =>
    simpa [List.replicate_succ, parsePaddedNum] using ih

/-- Parsing the zero-padded decimal digits of `n` yields `n`. -/
lemma parse_pad4_digits (n : Nat) : parsePaddedNum (pad4 (natDigitChars n)) = n := by
  unfold pad4
  rw [parse_zero_pad]
  exact parse_natDigitCharsAux n n (Nat.lt_pow_self (by norm_num) n)

/-- Distinct counters yield distinct face-id strings. -/
lemma mkFaceId_injective : Function.Injective mkFaceId := by
  intro n m h
  unfold mkFaceId at h
  have hdata := congrArg String.data h
  simp only [String.data_append] at hdata
  have hlist : pad4 (natDigitChars n) = pad4 (natDigitChars m) :=
    List.append_cancel_left hdata
  have hp := congrArg parsePaddedNum hlist
  rwa [parse_pad4_digits, parse_pad4_digits] at hp

/-! ## Identity tracker theorems -/

/-- The matcher loop is the first face passing the tolerance test. -/
lemma match_detection_eq_find {α : Type} (d : α → α → ℚ) (tol : ℚ) (enc : α) :
    ∀ faces : List (TrackedFace α),
      match_detection_to_tracked_face d tol enc faces =
        (faces.find? (faceWithinTolerance d tol enc)).map TrackedFace.faceId := by
  intro faces
  induction faces with
  | nil => rfl
  | cons f rest ih =>
    unfold match_detection_to_tracked_face
    by_cases hs : f.status = "active"
    · cases hl : f.encodings.getLast? with
      | none =>
        have hp : ¬ faceWithinTolerance d tol enc f = true := by
          simp [faceWithinTolerance, hl]
        rw [List.find?_cons_of_neg _ hp]
        simpa [hs, hl] using ih
      | some r =>
        by_cases hd : d r enc ≤ tol
        · have hp : faceWithinTolerance d tol enc f = true := by
            simp [faceWithinTolerance, hl, hs, hd]
          rw [List.find?_cons_of_pos _ hp]
          simp [hs, hl, hd]
        · have hp : ¬ faceWithinTolerance d tol enc f = true := by
            simp [faceWithinTolerance, hl, hs, hd]
          rw [List.find?_cons_of_neg _ hp]
          simpa [hs, hl, hd] using ih
    · have hp : ¬ faceWithinTolerance d tol enc f = true := by
        simp [faceWithinTolerance, hs]
      rw [List.find?_cons_of_neg _ hp]
      simpa [hs] using ih

/-- C6 amended: `_match_detection_to_tracked_face` scans the tracked faces
in insertion (creation) order and matches the detection to the *first*
active identity whose most recent embedding is within tolerance — not to
the identity at global minimum distance; it returns no match iff no active
identity with a stored embedding is within tolerance, and in that case the
tracking update creates a fresh identity with the next id. -/
theorem match_picks_first_within_tolerance {α : Type} (d : α → α → ℚ) (tol : ℚ)
    (enc : α) (faces : List (TrackedFace α)) :
    (∀ fid, match_detection_to_tracked_face d tol enc faces = some fid ↔
      ∃ pre f post, faces = pre ++ f :: post ∧
        (∀ g ∈ pre, faceWithinTolerance d tol enc g = false) ∧
        faceWithinTolerance d tol enc f = true ∧ f.faceId = fid) ∧
    (match_detection_to_tracked_face d tol enc faces = none ↔
      ∀ f ∈ faces, faceWithinTolerance d tol enc f = false) ∧
    (∀ (s : FaceTrackerState α) (now : Nat),
      (processDetections d now s [enc]).2 =
        match match_detection_to_tracked_face d s.tolerance enc s.trackedFaces with
        | none => [mkFaceId s.nextFaceId]
        | some _ => []) := by
  refine ⟨?_, ?_, ?_⟩
  · intro fid
    rw [match_detection_eq_find]
    constructor
    · intro h
      obtain ⟨f, hfind, hfid⟩ := Option.map_eq_some'.mp h
      obtain ⟨hp, pre, post, heq, hall⟩ := List.find?_eq_some.mp hfind
      exact ⟨pre, f, post, heq, fun g hg => by simpa using hall g hg, hp, hfid⟩
    · rintro ⟨pre, f, post, heq, hpre, hf, hfid⟩
      have hfind : faces.find? (faceWithinTolerance d tol enc) = some f :=
        List.find?_eq_some.mpr ⟨hf, pre, post, heq, fun g hg => by simp [hpre g hg]⟩
      simp [hfind, hfid]
  · rw [match_detection_eq_find]
    simp
  · intro s now
    cases h : match_detection_to_tracked_face d s.tolerance enc s.trackedFaces <;>
      simp [processDetections, h]

/-- A concrete active identity at distance 1/2 from the new embedding. -/
def cexFaceA : TrackedFace ℚ :=
  { faceId := "face_0001", encodings := [1/2], lastSeen := 0, firstSeen := 0,
    detectionCount := 1 }

/-- A concrete active identity at distance 1/10 from the new embedding. -/
def cexFaceB : TrackedFace ℚ :=
  { faceId := "face_0002", encodings := [1/10], lastSeen := 0, firstSeen := 0,
    detectionCount := 1 }

/-- C6 counterexample: with two active identities both within the 0.6
tolerance of the new embedding (distances 1/2 and 1/10), the source's
matcher returns the first identity scanned, not the one at global minimum
distance (which the spec-modelled matcher returns). -/
theorem match_not_global_minimum_cex :
    match_detection_to_tracked_face ratDist (3/5) 0 [cexFaceA, cexFaceB] =
      some "face_0001" ∧
    matchBySpecMinimum ratDist (3/5) 0 [cexFaceA, cexFaceB] = some "face_0002" ∧
    ratDist (1/10) 0 < ratDist (1/2) 0 ∧ ratDist (1/2) 0 ≤ 3/5 := by
  refine ⟨?_, ?_, ?_, ?_⟩
  · norm_num [match_detection_to_tracked_face, cexFaceA, cexFaceB, ratDist,
      abs_of_nonneg]
  · norm_num [matchBySpecMinimum, cexFaceA, cexFaceB, List.argmin, List.argAux,
      ratDist, abs_of_nonneg]
  · norm_num [ratDist, abs_of_nonneg]
  · norm_num [ratDist, abs_of_nonneg]

/-- The per-detection loop only advances the id counter, and the ids it
creates are exactly the counters it passes over, so they are fresh and
pairwise distinct. -/
lemma processDetections_fresh {α : Type} (d : α → α → ℚ) (now : Nat) :
    ∀ (dets : List α) (s : FaceTrackerState α),
      s.nextFaceId ≤ (processDetections d now s dets).1.nextFaceId ∧
      (∀ id ∈ (processDetections d now s dets).2, ∃ k, s.nextFaceId ≤ k ∧
        k < (processDetections d now s dets).1.nextFaceId ∧ id = mkFaceId k) ∧
      (processDetections d now s dets).2.Nodup := by
  intro dets
  induction dets with
  | nil =>
    intro s
    refine ⟨le_refl _, ?_, ?_⟩ <;> simp [processDetections]
  | cons enc rest ih =>
    intro s
    cases hm : match_detection_to_tracked_face d s.tolerance enc s.trackedFaces with
    | some fid =>
      simp only [processDetections, hm]
      exact ih (matchedUpdateState s fid enc now)
    | none =>
      simp only [processDetections, hm]
      obtain ⟨hle, hmem, hnd⟩ := ih (newFaceState s enc now)
      have hle' : s.nextFaceId + 1 ≤
          (processDetections d now (newFaceState s enc now) rest).1.nextFaceId := hle
      refine ⟨by omega, ?_, ?_⟩
      · intro id hid
        rcases List.mem_cons.mp hid with heq | hmem'
        · exact ⟨s.nextFaceId, le_refl _, by omega, heq⟩
        · obtain ⟨k, hk1, hk2, hk3⟩ := hmem id hmem'
          have hk1' : s.nextFaceId + 1 ≤ k := hk1
          exact ⟨k, by omega, hk2, hk3⟩
      · rw [List.nodup_cons]
        refine ⟨?_, hnd⟩
        intro hin
        obtain ⟨k, hk1, _, hk3⟩ := hmem _ hin
        have hk1' : s.nextFaceId + 1 ≤ k := hk1
        have : s.nextFaceId = k := mkFaceId_injective hk3
        omega

/-- `update_tracking` only adds the aging and purge passes, which touch
neither the id counter nor the created-id list. -/
lemma update_tracking_fresh {α : Type} (d : α → α → ℚ) (s : FaceTrackerState α)
    (dets : List α) (now : Nat) :
    s.nextFaceId ≤ (update_tracking d s dets now).1.nextFaceId ∧
    (∀ id ∈ (update_tracking d s dets now).2, ∃ k, s.nextFaceId ≤ k ∧
      k < (update_tracking d s dets now).1.nextFaceId ∧ id = mkFaceId k) ∧
    (update_tracking d s dets now).2.Nodup :=
  processDetections_fresh d now dets s

/-- Created ids across a reset-free operation sequence stay fresh and
pairwise distinct. -/
lemma runTrackerOps_fresh {α : Type} (d : α → α → ℚ) :
    ∀ (ops : List (TrackerOp α)) (s : FaceTrackerState α),
      TrackerOp.reset ∉ ops →
      s.nextFaceId ≤ (runTrackerOps d s ops).1.nextFaceId ∧
      (∀ id ∈ (runTrackerOps d s ops).2, ∃ k, s.nextFaceId ≤ k ∧
        k < (runTrackerOps d s ops).1.nextFaceId ∧ id = mkFaceId k) ∧
      (runTrackerOps d s ops).2.Nodup := by
  intro ops
  induction ops with
  | nil =>
    intro s _
    refine ⟨le_refl _, ?_, ?_⟩ <;> simp [runTrackerOps]
  | cons op rest ih =>
    intro s hno
    have hop : op ≠ TrackerOp.reset := fun h => hno (h ▸ List.mem_cons_self op rest)
    have hrest : TrackerOp.reset ∉ rest := fun h => hno (List.mem_cons_of_mem op h)
    cases op with
    | reset => exact absurd rfl hop
    | update dets now =>
      simp only [runTrackerOps, runTrackerOp]
      obtain ⟨h1, h2, h3⟩ := update_tracking_fresh d s dets now
      obtain ⟨g1, g2, g3⟩ := ih (update_tracking d s dets now).1 hrest
      refine ⟨le_trans h1 g1, ?_, ?_⟩
      · intro id hid
        rcases List.mem_append.mp hid with h | h
        · obtain ⟨k, hk1, hk2, hk3⟩ := h2 id h
          exact ⟨k, hk1, lt_of_lt_of_le hk2 g1, hk3⟩
        · obtain ⟨k, hk1, hk2, hk3⟩ := g2 id h
          exact ⟨k, le_trans h1 hk1, hk2, hk3⟩
      · refine List.Nodup.append h3 g3 ?_
        intro id hidl hidr
        obtain ⟨k, _, hk2, hk3⟩ := h2 id hidl
        obtain ⟨k', hk1', _, hk3'⟩ := g2 id hidr
        have hkk : k = k' := mkFaceId_injective (hk3 ▸ hk3')
        omega

/-- C9 amended: within any sequence of tracker operations that contains no
reset, the ids assigned to newly created identities are pairwise distinct
(ids are never reused); `reset_tracking` however resets the id counter to
1, so ids recur across a reset. -/
theorem tracker_ids_not_reused_without_reset {α : Type} (d : α → α → ℚ)
    (s : FaceTrackerState α) (ops : List (TrackerOp α))
    (hno : TrackerOp.reset ∉ ops) :
    ((runTrackerOps d s ops).2).Nodup :=
  (runTrackerOps_fresh d ops s hno).2.2

/-- Witness for C9: two update cycles (no reset) from the initial tracker;
the single id created is trivially not a reuse. -/
theorem tracker_ids_not_reused_without_reset_witness :
    (TrackerOp.reset ∉
      [TrackerOp.update [(0:ℚ)] 0, TrackerOp.update [(0:ℚ)] 5]) ∧
    ((runTrackerOps ratDist demoTracker
      [TrackerOp.update [(0:ℚ)] 0, TrackerOp.update [(0:ℚ)] 5]).2).Nodup :=
  ⟨by simp, tracker_ids_not_reused_without_reset ratDist demoTracker
      [TrackerOp.update [(0:ℚ)] 0, TrackerOp.update [(0:ℚ)] 5] (by simp)⟩

/-- C9 counterexample: update, reset, update from the initial tracker
creates the id `face_0001` twice — the id assigned after the reset equals
an id assigned before it, refuting no-reuse over sequences with resets. -/
theorem tracker_id_reused_after_reset_cex :
    (runTrackerOps ratDist demoTracker
      [TrackerOp.update [(0:ℚ)] 0, TrackerOp.reset, TrackerOp.update [(0:ℚ)] 1]).2 =
      ["face_0001", "face_0001"] ∧
    ¬ ((runTrackerOps ratDist demoTracker
      [TrackerOp.update [(0:ℚ)] 0, TrackerOp.reset, TrackerOp.update [(0:ℚ)] 1]).2).Nodup := by
  constructor
  · decide
  · decide

/-! ## Anti-fraud fusion theorems -/

/-- Lookup after the silence pass applies the silence rule to the found
record. -/
lemma lookup_map_silenceStep (now timeout : Nat) (ids : List String) :
    ∀ (l : List (String × PassengerRecord)) (k : String),
      (l.map (silenceStep now timeout ids)).lookup k =
        (l.lookup k).map (silenceRecord now timeout ids k) := by
  intro l
  induction l with
  | nil => intro k; rfl
  | cons p rest ih =>
    intro k
    obtain ⟨k', v⟩ := p
    by_cases h : k = k'
    · subst h
      simp [silenceStep, List.lookup_cons]
    · simp only [List.map_cons, silenceStep, List.lookup_cons,
        beq_eq_false_iff_ne.mpr h]
      exact ih k

/-- Lookup after `setRecord` returns the written record when the key was
present, and is unaffected otherwise. -/
lemma lookup_setRecord (fid : String) (v : PassengerRecord) :
    ∀ l : List (String × PassengerRecord),
      (setRecord l fid v).lookup fid = (l.lookup fid).map fun _ => v := by
  intro l
  induction l with
  | nil => rfl
  | cons p rest ih =>
    obtain ⟨k, w⟩ := p
    by_cases h : k = fid
    · subst h
      simp [setRecord, List.lookup_cons]
    · have hb : (k == fid) = false := beq_eq_false_iff_ne.mpr h
      have hb' : (fid == k) = false := beq_eq_false_iff_ne.mpr (Ne.symm h)
      simpa [setRecord, List.lookup_cons, hb, hb', h, Ne.symm h] using ih

/-- A looked-up entry that the filter predicate keeps is still found, with
the same value, after filtering. -/
lemma lookup_filter_keep (p : String × PassengerRecord → Bool) :
    ∀ (l : List (String × PassengerRecord)) (k : String) (v : PassengerRecord),
      l.lookup k = some v → p (k, v) = true → (l.filter p).lookup k = some v := by
  intro l
  induction l with
  | nil => intro k v h; simp at h
  | cons q rest ih =>
    intro k v h hp
    obtain ⟨k', w⟩ := q
    by_cases hk : k = k'
    · subst hk
      rw [List.lookup_cons] at h
      simp only [beq_self_eq_true] at h
      obtain rfl : w = v := by simpa using h
      rw [List.filter_cons, if_pos hp]
      simp [List.lookup_cons]
    · rw [List.lookup_cons, beq_eq_false_iff_ne.mpr hk] at h
      rw [List.filter_cons]
      split
      · rw [List.lookup_cons, beq_eq_false_iff_ne.mpr hk]
        exact ih k v h hp
      · exact ih k v h hp

/-- With no face detections every zone event passes through unchanged and
the state (records and statistics) is untouched. -/
lemma validate_no_faces (s : AntiFraudState) :
    ∀ events : List ZoneEvent, validate_zone_events s events [] = (s, events) := by
  intro events
  induction events with
  | nil => rfl
  | cons ev rest ih =>
    simp only [validate_zone_events, match_zone_event_to_face, ih]

/-- Events without a face id are skipped by the record-update loop. -/
lemma processValidatedEvents_skip (now : Nat) (records : List (String × PassengerRecord))
    (stats : AntiFraudStats) :
    ∀ events : List ZoneEvent, (∀ ev ∈ events, ev.faceId = none) →
      processValidatedEvents now records stats events = (records, stats) := by
  intro events
  induction events with
  | nil => intro _; rfl
  | cons ev rest ih =>
    intro hraw
    have hhead : ev.faceId = none := hraw ev (List.mem_cons_self ev rest)
    simp only [processValidatedEvents, applyValidatedEvent, hhead]
    exact ih fun e he => hraw e (List.mem_cons_of_mem ev he)

/-- C5: unvalidated fallback.  With an empty face-detection list every zone
event of the cycle is forwarded unchanged (and the validation state is
untouched), and — since such events carry no face id — the record-update
loop run on them creates and modifies no `PassengerRecord` and leaves the
statistics unchanged. -/
theorem unvalidated_fallback (s : AntiFraudState) (events : List ZoneEvent)
    (now : Nat) (hraw : ∀ ev ∈ events, ev.faceId = none) :
    validate_zone_events s events [] = (s, events) ∧
    processValidatedEvents now s.passengerRecords s.stats events =
      (s.passengerRecords, s.stats) :=
  ⟨validate_no_faces s events,
    processValidatedEvents_skip now s.passengerRecords s.stats events hraw⟩

/-- Witness for C5: one raw entry event, empty face list, initial state. -/
theorem unvalidated_fallback_witness :
    (∀ ev ∈ [({ type := "entry", personId := 0, detectionCenter := some (5, 5) }
        : ZoneEvent)], ev.faceId = none) ∧
    (validate_zone_events {}
        [({ type := "entry", personId := 0, detectionCenter := some (5, 5) }
          : ZoneEvent)] [] =
      ({}, [({ type := "entry", personId := 0, detectionCenter := some (5, 5) }
        : ZoneEvent)]) ∧
     processValidatedEvents 7 (({} : AntiFraudState)).passengerRecords
        (({} : AntiFraudState)).stats
        [({ type := "entry", personId := 0, detectionCenter := some (5, 5) }
          : ZoneEvent)] =
      ((({} : AntiFraudState)).passengerRecords, (({} : AntiFraudState)).stats)) :=
  ⟨by decide, unvalidated_fallback {} _ 7 (by decide)⟩

/-- C10: a record whose first accepted event is an `exit` is created with
`entry_time = None`, `exit_time = None` and status `outside` (and bumps
`unique_passengers_seen`), and since the cleanup pass only purges records
whose `exit_time or entry_time` is a timestamp older than one hour, a
record with both timestamps absent survives cleanup at every time. -/
theorem exit_first_record_never_purged (records : List (String × PassengerRecord))
    (stats : AntiFraudStats) (fid : String) (now1 : Nat)
    (hnew : records.lookup fid = none) :
    processValidatedEvents now1 records stats
        [{ type := "exit", personId := 0, detectionCenter := none, faceId := some fid }] =
      (records ++
          [(fid,
            { faceId := fid, entryTime := none, exitTime := none,
              status := "outside",
              zoneEvents := ["exit" ++ "_" ++ toString now1] })],
        { stats with uniquePassengersSeen := stats.uniquePassengersSeen + 1 }) ∧
    (∀ (recs : List (String × PassengerRecord)) (r : PassengerRecord) (now : Nat),
      recs.lookup fid = some r → r.entryTime = none → r.exitTime = none →
      (cleanup_old_records recs now).lookup fid = some r) := by
  constructor
  · simp [processValidatedEvents, applyValidatedEvent, hnew]
  · intro recs r now hl he hx
    apply lookup_filter_keep _ recs fid r hl
    simp [he, hx, Option.or]

/-- Witness for C10: the exit event arrives for an unknown id in the empty
record dict; the created record then survives a cleanup one day later. -/
theorem exit_first_record_never_purged_witness :
    (([] : List (String × PassengerRecord)).lookup "face_0001" = none) ∧
    (processValidatedEvents 3 [] {}
        [{ type := "exit", personId := 0, detectionCenter := none,
           faceId := some "face_0001" }] =
      ([("face_0001",
          { faceId := "face_0001", entryTime := none, exitTime := none,
            status := "outside",
            zoneEvents := ["exit" ++ "_" ++ toString 3] })],
        { ({} : AntiFraudStats) with uniquePassengersSeen :=
            (({} : AntiFraudStats)).uniquePassengersSeen + 1 }) ∧
     (∀ (recs : List (String × PassengerRecord)) (r : PassengerRecord) (now : Nat),
       recs.lookup "face_0001" = some r → r.entryTime = none → r.exitTime = none →
       (cleanup_old_records recs now).lookup "face_0001" = some r)) :=
  ⟨rfl, exit_first_record_never_purged [] {} "face_0001" 3 rfl⟩

/-- C2: double-count suppression.  A zone event spatially matched to a face
whose record has status `inside` is rejected when it is an `entry`
(`entry` is legitimate iff the status is `outside` or `temporary_exit`,
and with no record any event type is legitimate): processing that event
drops it from the validated set, increments `prevented_double_counts` by
exactly one, leaves the record dict untouched, and — the validated set
being empty — the record-update loop changes nothing either. -/
theorem double_count_suppression (s : AntiFraudState) (faces : List FaceDet)
    (ev : ZoneEvent) (f : FaceDet) (fid : String) (r : PassengerRecord)
    (hm : match_zone_event_to_face ev faces = some f)
    (hf : f.faceId = some fid)
    (hr : s.passengerRecords.lookup fid = some r)
    (hst : r.status = "inside") (hty : ev.type = "entry") :
    is_legitimate_event s.passengerRecords ev.type f.faceId = false ∧
    validate_zone_events s [ev] faces =
      ({ s with stats := { s.stats with
          preventedDoubleCounts := s.stats.preventedDoubleCounts + 1 } }, []) ∧
    (∀ now, processValidatedEvents now s.passengerRecords s.stats [] =
      (s.passengerRecords, s.stats)) ∧
    (∀ fid' r', s.passengerRecords.lookup fid' = some r' →
      (is_legitimate_event s.passengerRecords "entry" (some fid') = true ↔
        (r'.status = "outside" ∨ r'.status = "temporary_exit"))) ∧
    (∀ fid' ty, s.passengerRecords.lookup fid' = none →
      is_legitimate_event s.passengerRecords ty (some fid') = true) := by
  have hlegit : is_legitimate_event s.passengerRecords ev.type f.faceId = false := by
    simp [is_legitimate_event, lookupByOptId, hf, hr, hty, hst]
  refine ⟨hlegit, ?_, fun now => rfl, ?_, ?_⟩
  · simp [validate_zone_events, hm, hlegit]
  · intro fid' r' hr'
    simp [is_legitimate_event, lookupByOptId, hr']
  · intro fid' ty hr'
    simp [is_legitimate_event, lookupByOptId, hr']

/-- A concrete face detection at the event's own center. -/
def c2Face : FaceDet :=
  { top := 0, rightEdge := 0, bottom := 0, leftEdge := 0, faceId := some "face_0001" }

/-- A concrete entry event at pixel (0,0). -/
def c2Event : ZoneEvent :=
  { type := "entry", personId := 0, detectionCenter := some (0, 0) }

/-- The record of a passenger currently inside. -/
def c2Record : PassengerRecord := { faceId := "face_0001", entryTime := some 0 }

/-- A fusion state whose only record is inside. -/
def c2State : AntiFraudState :=
  { passengerRecords := [("face_0001", c2Record)] }

/-- Witness for C2 at the concrete inside passenger and matched entry
event. -/
theorem double_count_suppression_witness :
    (match_zone_event_to_face c2Event [c2Face] = some c2Face ∧
     c2Face.faceId = some "face_0001" ∧
     c2State.passengerRecords.lookup "face_0001" = some c2Record ∧
     c2Record.status = "inside" ∧ c2Event.type = "entry") ∧
    (is_legitimate_event c2State.passengerRecords c2Event.type c2Face.faceId = false ∧
     validate_zone_events c2State [c2Event] [c2Face] =
       ({ c2State with stats := { c2State.stats with
           preventedDoubleCounts := c2State.stats.preventedDoubleCounts + 1 } }, []) ∧
     (∀ now, processValidatedEvents now c2State.passengerRecords c2State.stats [] =
       (c2State.passengerRecords, c2State.stats)) ∧
     (∀ fid' r', c2State.passengerRecords.lookup fid' = some r' →
       (is_legitimate_event c2State.passengerRecords "entry" (some fid') = true ↔
         (r'.status = "outside" ∨ r'.status = "temporary_exit"))) ∧
     (∀ fid' ty, c2State.passengerRecords.lookup fid' = none →
       is_legitimate_event c2State.passengerRecords ty (some fid') = true)) :=
  ⟨⟨by decide, by decide, by decide, by decide, by decide⟩,
    double_count_suppression c2State [c2Face] c2Event c2Face "face_0001" c2Record
      (by decide) (by decide) (by decide) (by decide) (by decide)⟩

/-- C4: temporary-exit round trip.  A record with status `inside`, a
stamped entry time, an identity missing from the cycle's active identities
and silence beyond the timeout is flipped to `temporary_exit` by the
record-update pass; a subsequent entry event for the same identity is then
legitimate, and processing it sets the status back to `inside` and bumps
`temporary_exits_handled` by exactly one. -/
theorem temporary_exit_round_trip {α : Type} (s : AntiFraudState)
    (tracked : List (TrackedFace α)) (fid : String) (r : PassengerRecord)
    (et now1 now2 : Nat)
    (hr : s.passengerRecords.lookup fid = some r)
    (hst : r.status = "inside") (het : r.entryTime = some et)
    (hact : fid ∉ activeFaceIds tracked)
    (htime : et + s.temporaryExitTimeout < now1) :
    ((update_passenger_records s [] tracked now1).passengerRecords.lookup fid =
      some { r with status := "temporary_exit" }) ∧
    (is_legitimate_event
      (update_passenger_records s [] tracked now1).passengerRecords
      "entry" (some fid) = true) ∧
    (((update_passenger_records (update_passenger_records s [] tracked now1)
        [{ type := "entry", personId := 0, detectionCenter := none,
           faceId := some fid }]
        ([] : List (TrackedFace α)) now2).passengerRecords.lookup fid).map
      PassengerRecord.status = some "inside") ∧
    (update_passenger_records (update_passenger_records s [] tracked now1)
        [{ type := "entry", personId := 0, detectionCenter := none,
           faceId := some fid }]
        ([] : List (TrackedFace α)) now2).stats.temporaryExitsHandled =
      s.stats.temporaryExitsHandled + 1 := by
  have hcont : (activeFaceIds tracked).contains fid = false := by
    simpa using hact
  have hs1 : (update_passenger_records s [] tracked now1).passengerRecords =
      s.passengerRecords.map
        (silenceStep now1 s.temporaryExitTimeout (activeFaceIds tracked)) := rfl
  have hsil : silenceRecord now1 s.temporaryExitTimeout (activeFaceIds tracked)
      fid r = { r with status := "temporary_exit" } := by
    simp [silenceRecord, hst, het, hcont, htime, hact]
  have h1 : (update_passenger_records s [] tracked now1).passengerRecords.lookup
      fid = some { r with status := "temporary_exit" } := by
    rw [hs1, lookup_map_silenceStep, hr, Option.map_some', hsil]
  have happ : applyValidatedEvent now2
      (update_passenger_records s [] tracked now1).passengerRecords
      (update_passenger_records s [] tracked now1).stats
      { type := "entry", personId := 0, detectionCenter := none,
        faceId := some fid } =
      (setRecord (update_passenger_records s [] tracked now1).passengerRecords fid
        { faceId := r.faceId, entryTime := some now2, exitTime := r.exitTime,
          status := "inside",
          zoneEvents := r.zoneEvents ++ ["entry" ++ "_" ++ toString now2] },
        { (update_passenger_records s [] tracked now1).stats with
            temporaryExitsHandled :=
              (update_passenger_records s [] tracked now1).stats.temporaryExitsHandled
                + 1 }) := by
    simp [applyValidatedEvent, h1]
  have hs2 : (update_passenger_records (update_passenger_records s [] tracked now1)
      [{ type := "entry", personId := 0, detectionCenter := none,
         faceId := some fid }]
      ([] : List (TrackedFace α)) now2).passengerRecords =
      (applyValidatedEvent now2
        (update_passenger_records s [] tracked now1).passengerRecords
        (update_passenger_records s [] tracked now1).stats
        { type := "entry", personId := 0, detectionCenter := none,
          faceId := some fid }).1.map
        (silenceStep now2
          (update_passenger_records s [] tracked now1).temporaryExitTimeout
          (activeFaceIds ([] : List (TrackedFace α)))) := rfl
  have hs2s : (update_passenger_records (update_passenger_records s [] tracked now1)
      [{ type := "entry", personId := 0, detectionCenter := none,
         faceId := some fid }]
      ([] : List (TrackedFace α)) now2).stats =
      (applyValidatedEvent now2
        (update_passenger_records s [] tracked now1).passengerRecords
        (update_passenger_records s [] tracked now1).stats
        { type := "entry", personId := 0, detectionCenter := none,
          faceId := some fid }).2 := rfl
  have hnolt : ¬ (now2 +
      (update_passenger_records s [] tracked now1).temporaryExitTimeout < now2) := by
    omega
  refine ⟨h1, ?_, ?_, ?_⟩
  · simp [is_legitimate_event, lookupByOptId, h1]
  · rw [hs2, happ, lookup_map_silenceStep, lookup_setRecord, h1,
      Option.map_some', Option.map_some', Option.map_some']
    simp [silenceRecord, activeFaceIds, hnolt]
  · rw [hs2s, happ]
    rfl

/-- Witness for C4: the inside passenger `face_0001` (entry at tick 0,
timeout 30) is unseen at tick 31 and re-enters at tick 40. -/
theorem temporary_exit_round_trip_witness :
    (c2State.passengerRecords.lookup "face_0001" = some c2Record ∧
     c2Record.status = "inside" ∧ c2Record.entryTime = some 0 ∧
     "face_0001" ∉ activeFaceIds ([] : List (TrackedFace ℚ)) ∧
     0 + c2State.temporaryExitTimeout < 31) ∧
    (((update_passenger_records c2State [] ([] : List (TrackedFace ℚ))
        31).passengerRecords.lookup "face_0001" =
      some { c2Record with status := "temporary_exit" }) ∧
     (is_legitimate_event
        (update_passenger_records c2State [] ([] : List (TrackedFace ℚ))
          31).passengerRecords "entry" (some "face_0001") = true) ∧
     (((update_passenger_records
         (update_passenger_records c2State [] ([] : List (TrackedFace ℚ)) 31)
         [{ type := "entry", personId := 0, detectionCenter := none,
            faceId := some "face_0001" }]
         ([] : List (TrackedFace ℚ)) 40).passengerRecords.lookup "face_0001").map
       PassengerRecord.status = some "inside") ∧
     (update_passenger_records
         (update_passenger_records c2State [] ([] : List (TrackedFace ℚ)) 31)
         [{ type := "entry", personId := 0, detectionCenter := none,
            faceId := some "face_0001" }]
         ([] : List (TrackedFace ℚ)) 40).stats.temporaryExitsHandled =
       c2State.stats.temporaryExitsHandled + 1) :=
  ⟨⟨by decide, by decide, by decide, by decide, by decide⟩,
    temporary_exit_round_trip c2State [] "face_0001" c2Record 0 31 40
      (by decide) (by decide) (by decide) (by decide) (by decide)⟩

end TaxiTrack
